import Mathlib

/-!
Shallow embedding of the fake-stack-overflow chat/game template
(server chat service + chat controller, socket room handlers, and the
client hooks for the Nim game page, the users list page and the auth form).

The external document store (mongoose models) is modelled as an explicit
in-memory database value threaded through every service call.  Each store
write takes an extra `Bool` flag that injects an external-store failure at
that step, so that "the external store fails at step X" is expressible.
-/

/-- Decidable equality for `Except`, so results of fallible service calls can
be compared by evaluation. -/
instance {ε α : Type} [DecidableEq ε] [DecidableEq α] : DecidableEq (Except ε α)
  | Except.ok a, Except.ok b =>
    if h : a = b then Decidable.isTrue (h ▸ rfl)
    else Decidable.isFalse (fun hc => h (Except.ok.inj hc))
  | Except.error e, Except.error f =>
    if h : e = f then Decidable.isTrue (h ▸ rfl)
    else Decidable.isFalse (fun hc => h (Except.error.inj hc))
  | Except.ok _, Except.error _ => Decidable.isFalse (fun hc => Except.noConfusion hc)
  | Except.error _, Except.ok _ => Decidable.isFalse (fun hc => Except.noConfusion hc)

namespace ChatService

/-- A user document (`UserModel`): object id and username. -/
structure UserDoc where
  uid : String
  username : String
deriving DecidableEq

/-- The payload fields of a message as supplied by callers
(`msg`, `msgFrom`, `msgDateTime`, `type`). -/
structure MessageData where
  msg : String
  msgFrom : String
  msgDateTime : Nat
  mtype : String
deriving DecidableEq

/-- A persisted message document (`MessageModel`), with its store-assigned id. -/
structure StoredMessage where
  mid : String
  msg : String
  msgFrom : String
  msgDateTime : Nat
  mtype : String
deriving DecidableEq

/-- A persisted chat document (`ChatModel`): id, participant ids and
message ids, in insertion order. -/
structure StoredChat where
  cid : String
  participants : List String
  messages : List String
deriving DecidableEq

/-- The external document store: users, messages and chats collections plus a
counter used to mint fresh object ids. -/
structure DB where
  users : List UserDoc
  messages : List StoredMessage
  chats : List StoredChat
  nextId : Nat
deriving DecidableEq

/-- A fresh object id minted by the store. -/
def freshId (db : DB) : String := "id" ++ toString db.nextId

/-- `UserModel.findOne (\x7b username \x7d)`: first user with the given username. -/
def userFindOne (db : DB) (username : String) : Option UserDoc :=
  db.users.find? (fun u => u.username == username)

/-- `ChatModel.findById(chatId)`: first chat with the given id. -/
def chatFindById (db : DB) (chatId : String) : Option StoredChat :=
  db.chats.find? (fun c => c.cid == chatId)

/-- Writing back an updated chat document: every chat with the same id is
replaced by the updated one. -/
def updateChat (db : DB) (c : StoredChat) : DB :=
  { db with chats := db.chats.map (fun x => if x.cid == c.cid then c else x) }

/-- `MessageModel.create(m)`: on store failure the database is unchanged and an
error marker is returned; otherwise the message is appended with a fresh id. -/
def messageCreate (db : DB) (m : MessageData) (fail : Bool) :
    Except String StoredMessage × DB :=
  if fail then (Except.error "store failure", db)
  else
    let sm : StoredMessage := ⟨freshId db, m.msg, m.msgFrom, m.msgDateTime, m.mtype⟩
    (Except.ok sm, { db with messages := db.messages ++ [sm], nextId := db.nextId + 1 })

/-- `ChatModel.create(\x7b participants, messages \x7d)`. -/
def chatCreate (db : DB) (participants : List String) (messageIds : List String)
    (fail : Bool) : Except String StoredChat × DB :=
  if fail then (Except.error "store failure", db)
  else
    let c : StoredChat := ⟨freshId db, participants, messageIds⟩
    (Except.ok c, { db with chats := db.chats ++ [c], nextId := db.nextId + 1 })

/-- The message-creation loop inside `saveChat` (`Promise.all` over
`chatPayload.messages.map(msg => MessageModel.create(msg))`), modelled as a
sequential left-to-right loop; `failAt i` injects a store failure at the
`i`-th create.  Messages created before a failing step stay persisted — the
catch block in `saveChat` does not delete them. -/
def createMessageIds (db : DB) (msgs : List MessageData) (failAt : Nat → Bool)
    (i : Nat) : Except String (List String) × DB :=
  match msgs with
  | [] => (Except.ok [], db)
  | m :: rest =>
    match messageCreate db m (failAt i) with
    | (Except.error e, db1) => (Except.error e, db1)
    | (Except.ok sm, db1) =>
      match createMessageIds db1 rest failAt (i + 1) with
      | (Except.error e, db2) => (Except.error e, db2)
      | (Except.ok ids, db2) => (Except.ok (sm.mid :: ids), db2)

/-- The payload of `saveChat`. -/
structure CreateChatPayload where
  participants : List String
  messages : List MessageData
deriving DecidableEq

/-- `saveChat(chatPayload)`: create each message document, then create the chat
document holding the participants and the new message ids.  Any failure is
caught and returned as an error marker; database effects of the steps that
already succeeded are kept. -/
def saveChat (db : DB) (payload : CreateChatPayload) (failMsgAt : Nat → Bool)
    (failChat : Bool) : Except String StoredChat × DB :=
  match createMessageIds db payload.messages failMsgAt 0 with
  | (Except.error e, db1) =>
    (Except.error ("Error occurred while saving chat: " ++ e), db1)
  | (Except.ok ids, db1) =>
    match chatCreate db1 payload.participants ids failChat with
    | (Except.error e, db2) =>
      (Except.error ("Error occurred while saving chat: " ++ e), db2)
    | (Except.ok c, db2) => (Except.ok c, db2)

/-- `createMessage(messageData)`: looks the sender up by username in the user
store (this is the only validation — chat membership is never consulted), then
creates the message document. -/
def createMessage (db : DB) (m : MessageData) (failCreate : Bool) :
    Except String StoredMessage × DB :=
  match userFindOne db m.msgFrom with
  | none => (Except.error "Error occurred while creating message: User not found", db)
  | some _ =>
    match messageCreate db m failCreate with
    | (Except.error e, db1) =>
      (Except.error ("Error occurred while creating message: " ++ e), db1)
    | (Except.ok sm, db1) => (Except.ok sm, db1)

/-- `addMessageToChat(chatId, messageId)`:
`ChatModel.findByIdAndUpdate(chatId, \x7b $push: \x7b messages: messageId \x7d \x7d, \x7b new: true \x7d)` —
append the message id to the chat's message list.  A store failure or an
unknown chat id yields an error marker and no change. -/
def addMessageToChat (db : DB) (chatId : String) (messageId : String)
    (failUpdate : Bool) : Except String StoredChat × DB :=
  if failUpdate then
    (Except.error "Error occurred while adding the message to chat: store failure", db)
  else
    match chatFindById db chatId with
    | none => (Except.error "Error occurred while adding the message to chat: Chat not found", db)
    | some c =>
      let c1 : StoredChat := { c with messages := c.messages ++ [messageId] }
      (Except.ok c1, updateChat db c1)

/-- `addParticipantToChat(chatId, userId)`: the user is looked up by username;
then `ChatModel.findByIdAndUpdate(\x7b _id: chatId, participants: \x7b $in: [user._id] \x7d \x7d, \x7b $push: ... \x7d)`.
Mongoose casts the filter object passed in id position to its `_id` field, so
the `participants` clause is dropped and the update is a plain find-by-id plus
`$push`: the user id is appended unconditionally — there is no duplicate
check anywhere in this function. -/
def addParticipantToChat (db : DB) (chatId : String) (userId : String)
    (failUpdate : Bool) : Except String StoredChat × DB :=
  match userFindOne db userId with
  | none => (Except.error "Error occurred while adding participant to chat: User not found", db)
  | some u =>
    if failUpdate then
      (Except.error "Error occurred while adding participant to chat: store failure", db)
    else
      match chatFindById db chatId with
      | none =>
        (Except.error "Error occurred while adding participant to chat: Chat not found", db)
      | some c =>
        let c1 : StoredChat := { c with participants := c.participants ++ [u.uid] }
        (Except.ok c1, updateChat db c1)

/-- A chat with its message ids resolved to full message documents. -/
structure PopulatedChat where
  cid : String
  participants : List String
  messages : List StoredMessage
deriving DecidableEq

/-- Modelled from the spec: `populateDocument` lives in
`server/utils/database.util`, which is not part of the sources; the spec and
the controller tests establish that it resolves a chat's message ids to full
documents and returns an explicit error marker when the store fails. -/
def populateDocument (db : DB) (chatId : String) (fail : Bool) :
    Except String PopulatedChat :=
  if fail then Except.error "Error populating document"
  else
    match chatFindById db chatId with
    | none => Except.error "Chat not found"
    | some c =>
      Except.ok ⟨c.cid, c.participants,
        c.messages.filterMap (fun mid => db.messages.find? (fun m => m.mid == mid))⟩

end ChatService

namespace ChatController

open ChatService

/-- The body a route hands to `res.json` or a `chatUpdate` emit carries:
either a populated chat, a raw (unpopulated) chat document, or the error
object that an unchecked `populateDocument` failure produces. -/
inductive RespBody
  | populated (c : PopulatedChat)
  | raw (c : StoredChat)
  | errorObj (e : String)
deriving DecidableEq

/-- HTTP responses at the chat controller boundary: `json` is a 200 entity
response, `badRequest` a 400 with a literal message, `serverError` a 500 with
a wrapped message. -/
inductive HttpResponse
  | json (b : RespBody)
  | badRequest (s : String)
  | serverError (s : String)
deriving DecidableEq

/-- The delivery breadth of an emitted event: `socket.emit` is global,
`socket.to(chatId).emit` is scoped to the chat room. -/
inductive Scope
  | global
  | room (chatId : String)
deriving DecidableEq

/-- One emitted `chatUpdate` event: its scope, change type
(`created` / `newMessage` / `newParticipant`) and payload. -/
structure Emitted where
  scope : Scope
  etype : String
  body : RespBody
deriving DecidableEq

/-- What one route invocation produces: the HTTP response, the database after
the call, and the `chatUpdate` events emitted, in emission order. -/
structure RouteResult where
  resp : HttpResponse
  db : DB
  events : List Emitted
deriving DecidableEq

/-- The `req.body` of a createChat request; `express.json()` always supplies a
body object, individual fields may be absent. -/
structure CreateChatBody where
  participants : Option (List String)
  messages : Option (List MessageData)
deriving DecidableEq

/-- `isCreateChatRequestValid`:
`Array.isArray(participants) && participants.length > 0 && !!messages`
(an array value, even empty, is truthy in JS, so `!!messages` is just
presence of the field). -/
def isCreateChatRequestValid (b : CreateChatBody) : Bool :=
  match b.participants, b.messages with
  | some ps, some _ => ps.length > 0
  | _, _ => false

/-- JS truthiness of an optional string field: present and non-empty. -/
def truthyStr : Option String → Bool
  | some s => s != ""
  | none => false

/-- `isAddMessageRequestValid`: `!!chatId && !!msg && !!msgFrom`. -/
def isAddMessageRequestValid (chatId : String) (msg msgFrom : Option String) : Bool :=
  chatId != "" && truthyStr msg && truthyStr msgFrom

/-- `isAddParticipantRequestValid`: `!!chatId && !!participant`. -/
def isAddParticipantRequestValid (chatId : String) (participant : Option String) : Bool :=
  chatId != "" && truthyStr participant

/-- `createChatRoute`: validate, `saveChat`, populate the created chat, emit a
global `created` event and answer 200.  A `saveChat` error is caught as a 500;
the `populateDocument` result is NOT checked for an error marker — its error
object is emitted and returned with status 200. -/
def createChatRoute (db : DB) (b : CreateChatBody) (failMsgAt : Nat → Bool)
    (failChat failPop : Bool) : RouteResult :=
  if isCreateChatRequestValid b then
    match b.participants, b.messages with
    | some ps, some ms =>
      match saveChat db ⟨ps, ms⟩ failMsgAt failChat with
      | (Except.error e, db1) =>
        ⟨HttpResponse.serverError ("Error occurred while creating a chat: " ++ e), db1, []⟩
      | (Except.ok c, db1) =>
        match populateDocument db1 c.cid failPop with
        | Except.error e =>
          ⟨HttpResponse.json (RespBody.errorObj e), db1,
            [⟨Scope.global, "created", RespBody.errorObj e⟩]⟩
        | Except.ok pc =>
          ⟨HttpResponse.json (RespBody.populated pc), db1,
            [⟨Scope.global, "created", RespBody.populated pc⟩]⟩
    | _, _ => ⟨HttpResponse.badRequest "Invalid request for creating chat", db, []⟩
  else ⟨HttpResponse.badRequest "Invalid request for creating chat", db, []⟩

/-- The `req.body` of an addMessage request. -/
structure AddMessageBody where
  msg : Option String
  msgFrom : Option String
  msgDateTime : Option Nat
deriving DecidableEq

/-- `addMessageToChatRoute`: validate, `createMessage` (type `direct`,
`msgDateTime || new Date()`), `addMessageToChat`, populate, then emit one
`newMessage` event scoped to the `chatId` room and answer 200.  Service errors
are caught as 500s; the `populateDocument` result is NOT checked — its error
object is emitted and returned with status 200. -/
def addMessageToChatRoute (db : DB) (chatId : String) (b : AddMessageBody)
    (now : Nat) (failCreate failUpdate failPop : Bool) : RouteResult :=
  if isAddMessageRequestValid chatId b.msg b.msgFrom then
    match b.msg, b.msgFrom with
    | some msg, some msgFrom =>
      match createMessage db ⟨msg, msgFrom, b.msgDateTime.getD now, "direct"⟩ failCreate with
      | (Except.error e, db1) =>
        ⟨HttpResponse.serverError ("Error occurred while adding a message to the chat: " ++ e),
          db1, []⟩
      | (Except.ok sm, db1) =>
        match addMessageToChat db1 chatId sm.mid failUpdate with
        | (Except.error e, db2) =>
          ⟨HttpResponse.serverError ("Error occurred while adding a message to the chat: " ++ e),
            db2, []⟩
        | (Except.ok uc, db2) =>
          match populateDocument db2 uc.cid failPop with
          | Except.error e =>
            ⟨HttpResponse.json (RespBody.errorObj e), db2,
              [⟨Scope.room chatId, "newMessage", RespBody.errorObj e⟩]⟩
          | Except.ok pc =>
            ⟨HttpResponse.json (RespBody.populated pc), db2,
              [⟨Scope.room chatId, "newMessage", RespBody.populated pc⟩]⟩
    | _, _ => ⟨HttpResponse.badRequest "Invalid request body", db, []⟩
  else ⟨HttpResponse.badRequest "Invalid request body", db, []⟩

/-- `addParticipantToChatRoute`: validate, `addParticipantToChat`, then emit a
`newParticipant` event with `socket.emit` — GLOBAL scope, not the chat room —
and answer 200 with the raw service result (no `populateDocument` call). -/
def addParticipantToChatRoute (db : DB) (chatId : String)
    (participant : Option String) (failUpdate : Bool) : RouteResult :=
  if isAddParticipantRequestValid chatId participant then
    match participant with
    | some p =>
      match addParticipantToChat db chatId p failUpdate with
      | (Except.error e, db1) =>
        ⟨HttpResponse.serverError ("Error occurred while adding participant to chat: " ++ e),
          db1, []⟩
      | (Except.ok c, db1) =>
        ⟨HttpResponse.json (RespBody.raw c), db1,
          [⟨Scope.global, "newParticipant", RespBody.raw c⟩]⟩
    | none => ⟨HttpResponse.badRequest "Invalid request body", db, []⟩
  else ⟨HttpResponse.badRequest "Invalid request body", db, []⟩

/-- Transport-level room membership: the set of (connection, room) edges, as
maintained by socket.io (`conn.join` / `conn.leave`; rooms are sets, so an
edge is present at most once). -/
structure Rooms where
  pairs : List (String × String)
deriving DecidableEq

/-- Whether connection `c` is currently in room `r`. -/
def Rooms.inRoom (R : Rooms) (c : String) (r : String) : Bool :=
  R.pairs.contains (c, r)

/-- `conn.join(room)`: set insertion — a no-op when already a member. -/
def Rooms.join (R : Rooms) (c : String) (r : String) : Rooms :=
  if R.inRoom c r then R else ⟨(c, r) :: R.pairs⟩

/-- `conn.leave(room)`: set removal — a no-op when not a member. -/
def Rooms.leave (R : Rooms) (c : String) (r : String) : Rooms :=
  ⟨R.pairs.filter (fun p => p != (c, r))⟩

/-- The `joinChat` listener: `conn.join(chatID)`. -/
def joinChatHandler (R : Rooms) (conn : String) (chatID : String) : Rooms :=
  R.join conn chatID

/-- The `leaveChat` listener: `if (chatID) \x7b conn.leave(chatID) \x7d` — the room
is left only when the chat id is truthy: an undefined chat id AND an
empty-string chat id are both falsy in JS, so both skip the leave. -/
def leaveChatHandler (R : Rooms) (conn : String) (chatID : Option String) : Rooms :=
  match chatID with
  | some c => if c ≠ "" then R.leave conn c else R
  | none => R

/-- The connections an emitted event is delivered to, given the list of live
connections and the current room membership: a global emit reaches every
connection, a room-scoped emit reaches exactly the room's current members. -/
def recipients (conns : List String) (R : Rooms) (e : Emitted) : List String :=
  match e.scope with
  | Scope.global => conns
  | Scope.room r => conns.filter (fun c => R.inRoom c r)

end ChatController

namespace NimGame

/-- The `move` field of the payload emitted on `makeMove`. -/
structure MovePayload where
  playerID : String
  gameID : String
  numObjects : Nat
deriving DecidableEq

/-- `Number(c)` for the single character `value.slice(-1)`: a digit gives its
value, anything else is NaN (modelled as `none`; every numeric comparison
against NaN is false, matching the `none` branches below). -/
def charNumber (c : Char) : Option Nat :=
  if c.isDigit then some (c.toNat - 48) else none

/-- `Number(value.slice(-1))`: the numeric value of the last character of the
input (the empty string case is excluded separately by `value !== ''`). -/
def lastCharNumber (s : String) : Option Nat :=
  match s.data.getLast? with
  | some c => charNumber c
  | none => none

/-- `handleInputChange`: compute `numObjects = Number(value.slice(-1))`; only
when `value !== '' && numObjects >= 1 && numObjects <= 3` is the move state
updated (to `numObjects`, since `value === '' ? 1 : numObjects` collapses);
otherwise the stored move is left unchanged. -/
def handleInputChange (move : Option Nat) (value : String) : Option Nat :=
  match lastCharNumber value with
  | some n => if value ≠ "" ∧ 1 ≤ n ∧ n ≤ 3 then some n else move
  | none => move

/-- The move state after a sequence of input-change events, starting from the
initial `useState<number | null>(null)`. -/
def moveState (inputs : List String) : Option Nat :=
  inputs.foldl handleInputChange none

/-- `handleMakeMove`: `if (move) socket.emit('makeMove', ...)` — the event is
emitted only when the stored move is truthy (non-null and non-zero). -/
def handleMakeMove (username gameID : String) (move : Option Nat) :
    Option MovePayload :=
  match move with
  | some n => if n ≠ 0 then some ⟨username, gameID, n⟩ else none
  | none => none

end NimGame

namespace Auth

/-- The input state of the auth form. -/
structure AuthInputs where
  username : String
  password : String
  passwordConfirmation : String
deriving DecidableEq

/-- `validateInputs`: empty username or password fails with an error message;
in signup mode a password/confirmation mismatch only SETS an error message and
falls through to `return true`.  Returns the boolean result paired with the
error message this call sets, if any. -/
def validateInputs (authType : String) (s : AuthInputs) : Bool × Option String :=
  if s.username == "" || s.password == "" then
    (false, some "Please enter a valid username and passsword")
  else if authType == "signup" && s.password != s.passwordConfirmation then
    (true, some "Password and Password confirmation do not match")
  else (true, none)

/-- The API call `handleSubmit` issues. -/
inductive ApiCall
  | loginUser (username password : String)
  | createUser (username password : String)
deriving DecidableEq

/-- `handleSubmit`: returns early when `validateInputs` is false; otherwise
calls `loginUser` or `createUser` with the username and password states (the
confirmation field is never sent). -/
def handleSubmit (authType : String) (s : AuthInputs) : Option ApiCall :=
  if (validateInputs authType s).1 then
    if authType == "login" then some (ApiCall.loginUser s.username s.password)
    else if authType == "signup" then some (ApiCall.createUser s.username s.password)
    else none
  else none

end Auth

namespace UsersList

/-- A user entry of the users-list page; the extra field stands for the rest
of the user document, so that replacing an entry is observable. -/
structure UserT where
  username : String
  biography : String
deriving DecidableEq

/-- `removeUserFromList`: keep exactly the entries whose username differs from
the removed user's. -/
def removeUserFromList (prevUserList : List UserT) (user : UserT) : List UserT :=
  prevUserList.filter (fun currUser => user.username != currUser.username)

/-- `addUserToList`: when some entry has the same username, map the list
replacing each matching entry by the payload's user; otherwise prepend the
user to the front. -/
def addUserToList (prevUserList : List UserT) (user : UserT) : List UserT :=
  if prevUserList.any (fun currUser => currUser.username == user.username) then
    prevUserList.map (fun currUser =>
      if currUser.username == user.username then user else currUser)
  else user :: prevUserList

/-- A `userUpdate` socket payload. -/
structure UserUpdatePayload where
  user : UserT
  utype : String
deriving DecidableEq

/-- `handleModifiedUserUpdate`: `created` adds/updates, `deleted` removes, any
other type throws `Invalid user update type` before any list update happens. -/
def handleModifiedUserUpdate (userList : List UserT) (userUpdate : UserUpdatePayload) :
    Except String (List UserT) :=
  if userUpdate.utype == "created" then
    Except.ok (addUserToList userList userUpdate.user)
  else if userUpdate.utype == "deleted" then
    Except.ok (removeUserFromList userList userUpdate.user)
  else Except.error "Invalid user update type"

end UsersList

namespace Samples

open ChatService

/-- A sample user document. -/
def aliceDoc : UserDoc := ⟨"u1", "alice"⟩

/-- A second sample user document, not a participant of `chat1`. -/
def bobDoc : UserDoc := ⟨"u2", "bob"⟩

/-- A sample chat whose only participant is alice. -/
def chat1 : StoredChat := ⟨"c1", ["u1"], []⟩

/-- A sample database: two users, no messages, one chat. -/
def db0 : DB := ⟨[aliceDoc, bobDoc], [], [chat1], 0⟩

end Samples

open ChatService ChatController

namespace ChatService

/-- Helper: `messageCreate` with no store failure, spelled out. -/
lemma messageCreate_false (db : DB) (m : MessageData) :
    messageCreate db m false =
      (Except.ok ⟨freshId db, m.msg, m.msgFrom, m.msgDateTime, m.mtype⟩,
       { db with
          messages := db.messages ++ [⟨freshId db, m.msg, m.msgFrom, m.msgDateTime, m.mtype⟩],
          nextId := db.nextId + 1 }) := rfl

/-- Helper: the message-creation loop with no store failure succeeds, appends
exactly the new messages, and touches neither chats nor users. -/
lemma createMessageIds_noFail (msgs : List MessageData) :
    ∀ (db : DB) (i : Nat),
      ∃ ids db2, createMessageIds db msgs (fun _ => false) i = (Except.ok ids, db2) ∧
        db2.messages.length = db.messages.length + msgs.length ∧
        db2.chats = db.chats ∧ db2.users = db.users := by
  induction msgs with
  | nil =>
    intro db i
    exact ⟨[], db, rfl, by simp [createMessageIds], rfl, rfl⟩
  | cons m rest ih =>
    intro db i
    obtain ⟨ids, db2, heq, hlen, hchats, husers⟩ :=
      ih { db with
            messages := db.messages ++ [⟨freshId db, m.msg, m.msgFrom, m.msgDateTime, m.mtype⟩],
            nextId := db.nextId + 1 } (i + 1)
    refine ⟨freshId db :: ids, db2, ?_, ?_, hchats, husers⟩
    · simp only [createMessageIds, messageCreate_false, heq]
    · rw [hlen]
      simp only [List.length_append, List.length_cons, List.length_nil]
      omega

/-- Helper: a `find?` by chat id over the write-back of an updated chat
returns the updated chat, when the original list found a chat with that id. -/
lemma find?_map_replace (l : List StoredChat) (cid : String) (c c1 : StoredChat)
    (h : l.find? (fun x => x.cid == cid) = some c) (h1 : c1.cid = cid) :
    (l.map (fun x => if x.cid == c1.cid then c1 else x)).find? (fun x => x.cid == cid)
      = some c1 := by
  subst h1
  induction l with
  | nil => simp at h
  | cons a rest ih =>
    cases ha : (a.cid == c1.cid) with
    | true =>
      simp only [List.map_cons, if_pos ha, List.find?_cons, beq_self_eq_true]
    | false =>
      have ha' : ¬((a.cid == c1.cid) = true) := by simp [ha]
      simp only [List.find?_cons, ha] at h
      simp only [List.map_cons, if_neg ha']
      simp only [List.find?_cons, ha]
      exact ih h

end ChatService

/-- C1 counterexample: user "alice" (id "u1") is already a participant of chat
"c1", yet `addParticipantToChat` succeeds and pushes "u1" again — there is no
`DuplicateParticipant` rejection and the participant list length grows from 1
to 2. -/
theorem c1_counterexample :
    "u1" ∈ Samples.chat1.participants ∧
    Samples.chat1.participants.length = 1 ∧
    addParticipantToChat Samples.db0 "c1" "alice" false =
      (Except.ok ⟨"c1", ["u1", "u1"], []⟩,
       ⟨[Samples.aliceDoc, Samples.bobDoc], [], [⟨"c1", ["u1", "u1"], []⟩], 0⟩) := by
  refine ⟨by decide, by decide, by decide⟩

/-- C1 (amended): for a participant already present in the chat,
`addParticipantToChat` does not reject: it appends the user's id to the
participant list again, so the list length increases by one. -/
theorem c1_duplicate_participant_appended
    (db : DB) (chatId username : String) (u : UserDoc) (c : StoredChat)
    (hu : userFindOne db username = some u)
    (hc : chatFindById db chatId = some c)
    (hdup : u.uid ∈ c.participants) :
    addParticipantToChat db chatId username false =
      (Except.ok { c with participants := c.participants ++ [u.uid] },
       updateChat db { c with participants := c.participants ++ [u.uid] }) ∧
    ({ c with participants := c.participants ++ [u.uid] } : StoredChat).participants.length
      = c.participants.length + 1 := by
  constructor
  · simp [addParticipantToChat, hu, hc]
  · simp

/-- C1 witness: the amended statement at the concrete duplicate add of
"alice" to chat "c1". -/
theorem c1_duplicate_participant_appended_witness :
    (addParticipantToChat Samples.db0 "c1" "alice" false =
      (Except.ok { Samples.chat1 with
                    participants := Samples.chat1.participants ++ ["u1"] },
       updateChat Samples.db0
         { Samples.chat1 with
            participants := Samples.chat1.participants ++ ["u1"] }) ∧
    ({ Samples.chat1 with participants := Samples.chat1.participants ++ ["u1"] } :
        StoredChat).participants.length = Samples.chat1.participants.length + 1) :=
  c1_duplicate_participant_appended Samples.db0 "c1" "alice" Samples.aliceDoc Samples.chat1
    (by decide) (by decide) (by decide)

/-- C2 counterexample: creating a chat whose chat-document creation fails at
the store leaves the already-created message persisted — the caller sees an
error but the message write is not rolled back. -/
theorem c2_counterexample :
    (saveChat Samples.db0 ⟨["alice"], [⟨"hi", "alice", 5, "direct"⟩]⟩
        (fun _ => false) true).1
      = Except.error ("Error occurred while saving chat: " ++ "store failure") ∧
    (saveChat Samples.db0 ⟨["alice"], [⟨"hi", "alice", 5, "direct"⟩]⟩
        (fun _ => false) true).2.messages
      = [⟨"id0", "hi", "alice", 5, "direct"⟩] ∧
    Samples.db0.messages = [] := by
  refine ⟨by decide, by decide, by decide⟩

/-- C2 (amended): a store failure at a later step surfaces an error to the
caller, but the writes of the earlier steps are kept, not rolled back:
`saveChat` whose chat creation fails leaves every payload message persisted,
and an addMessage request whose chat update fails leaves the created message
persisted (the chat list itself is unchanged and nothing is emitted). -/
theorem c2_partial_persistence
    : (∀ (db : DB) (ps : List String) (msgs : List MessageData),
        ∃ e db1, saveChat db ⟨ps, msgs⟩ (fun _ => false) true = (Except.error e, db1) ∧
          db1.messages.length = db.messages.length + msgs.length ∧
          db1.chats = db.chats) ∧
      (∀ (db : DB) (chatId msg msgFrom : String) (t now : Nat) (u : UserDoc),
        chatId ≠ "" → msg ≠ "" → msgFrom ≠ "" →
        userFindOne db msgFrom = some u →
        ∃ e, addMessageToChatRoute db chatId ⟨some msg, some msgFrom, some t⟩ now
            false true false
          = ⟨HttpResponse.serverError e,
             { db with
                messages := db.messages ++ [⟨freshId db, msg, msgFrom, t, "direct"⟩],
                nextId := db.nextId + 1 }, []⟩) := by
  constructor
  · intro db ps msgs
    obtain ⟨ids, db2, heq, hlen, hchats, -⟩ := createMessageIds_noFail msgs db 0
    refine ⟨"Error occurred while saving chat: " ++ "store failure", db2, ?_, hlen, hchats⟩
    simp [saveChat, heq, chatCreate]
  · intro db chatId msg msgFrom t now u hchat hmsg hmf hu
    have hval : isAddMessageRequestValid chatId (some msg) (some msgFrom) = true := by
      simp [isAddMessageRequestValid, truthyStr, hchat, hmsg, hmf]
    have hcm : createMessage db ⟨msg, msgFrom, t, "direct"⟩ false =
        (Except.ok ⟨freshId db, msg, msgFrom, t, "direct"⟩,
         { db with
            messages := db.messages ++ [⟨freshId db, msg, msgFrom, t, "direct"⟩],
            nextId := db.nextId + 1 }) := by
      simp only [createMessage, hu, messageCreate_false]
    refine ⟨"Error occurred while adding a message to the chat: " ++
      "Error occurred while adding the message to chat: store failure", ?_⟩
    simp [addMessageToChatRoute, hval, hcm, addMessageToChat]

/-- C2 witness: both amended parts at concrete inputs. -/
theorem c2_partial_persistence_witness :
    (∃ e db1, saveChat Samples.db0 ⟨["alice"], [⟨"hi", "alice", 5, "direct"⟩]⟩
        (fun _ => false) true = (Except.error e, db1) ∧
      db1.messages.length = Samples.db0.messages.length + 1 ∧
      db1.chats = Samples.db0.chats) ∧
    (∃ e, addMessageToChatRoute Samples.db0 "c1" ⟨some "hi", some "alice", some 5⟩ 9
        false true false
      = ⟨HttpResponse.serverError e,
         { Samples.db0 with
            messages := Samples.db0.messages ++
              [⟨freshId Samples.db0, "hi", "alice", 5, "direct"⟩],
            nextId := Samples.db0.nextId + 1 }, []⟩) :=
  ⟨c2_partial_persistence.1 Samples.db0 ["alice"] [⟨"hi", "alice", 5, "direct"⟩],
   c2_partial_persistence.2 Samples.db0 "c1" "hi" "alice" 5 9 Samples.aliceDoc
     (by decide) (by decide) (by decide) (by decide)⟩

/-- C3 counterexample: "bob" exists as a user but is NOT a participant of chat
"c1"; his addMessage request nevertheless succeeds — the message is persisted,
added to the chat and a `newMessage` event is emitted.  Sender validation only
checks user existence, never chat membership (and the sender is not implicitly
added to the participants either). -/
theorem c3_counterexample :
    "u2" ∉ Samples.chat1.participants ∧
    Samples.bobDoc.username = "bob" ∧
    addMessageToChatRoute Samples.db0 "c1" ⟨some "yo", some "bob", some 7⟩ 9
        false false false
      = ⟨HttpResponse.json (RespBody.populated
            ⟨"c1", ["u1"], [⟨"id0", "yo", "bob", 7, "direct"⟩]⟩),
         ⟨[Samples.aliceDoc, Samples.bobDoc], [⟨"id0", "yo", "bob", 7, "direct"⟩],
          [⟨"c1", ["u1"], ["id0"]⟩], 1⟩,
         [⟨Scope.room "c1", "newMessage", RespBody.populated
            ⟨"c1", ["u1"], [⟨"id0", "yo", "bob", 7, "direct"⟩]⟩⟩]⟩ := by
  refine ⟨by decide, by decide, by decide⟩

/-- C3 (amended): the sender of an addMessage request is validated to exist in
the user store (not to be a chat participant); a request whose sender does not
exist yields an error response, persists nothing and emits no event. -/
theorem c3_unknown_sender_rejected
    (db : DB) (chatId msg msgFrom : String) (t now : Nat)
    (hchat : chatId ≠ "") (hmsg : msg ≠ "") (hmf : msgFrom ≠ "")
    (hu : userFindOne db msgFrom = none) (fc fu fp : Bool) :
    addMessageToChatRoute db chatId ⟨some msg, some msgFrom, some t⟩ now fc fu fp
      = ⟨HttpResponse.serverError ("Error occurred while adding a message to the chat: " ++
          "Error occurred while creating message: User not found"), db, []⟩ := by
  have hval : isAddMessageRequestValid chatId (some msg) (some msgFrom) = true := by
    simp [isAddMessageRequestValid, truthyStr, hchat, hmsg, hmf]
  simp [addMessageToChatRoute, hval, createMessage, hu]

/-- C3 witness: the amended statement at a sender absent from the user
store. -/
theorem c3_unknown_sender_rejected_witness :
    addMessageToChatRoute Samples.db0 "c1" ⟨some "yo", some "zed", some 7⟩ 9
        false false false
      = ⟨HttpResponse.serverError ("Error occurred while adding a message to the chat: " ++
          "Error occurred while creating message: User not found"), Samples.db0, []⟩ :=
  c3_unknown_sender_rejected Samples.db0 "c1" "yo" "zed" 7 9
    (by decide) (by decide) (by decide) (by decide) false false false

/-- C4 counterexample: a successful addParticipant emits its `newParticipant`
chatUpdate with `socket.emit` — GLOBAL scope — so a connection that never
joined the "c1" room still receives it; the event is not restricted to the
chat-scoped subscribers. -/
theorem c4_counterexample :
    (addParticipantToChatRoute Samples.db0 "c1" (some "bob") false).events
      = [⟨Scope.global, "newParticipant", RespBody.raw ⟨"c1", ["u1", "u2"], []⟩⟩] ∧
    Rooms.inRoom ⟨[]⟩ "conn9" "c1" = false ∧
    recipients ["conn9"] ⟨[]⟩
        ⟨Scope.global, "newParticipant", RespBody.raw ⟨"c1", ["u1", "u2"], []⟩⟩
      = ["conn9"] := by
  refine ⟨by decide, by decide, by decide⟩

/-- C4 (amended): every successful addParticipant emits exactly one
`newParticipant` chatUpdate event with GLOBAL scope (`socket.emit`), which is
delivered to every connection, not only to the chat room's subscribers. -/
theorem c4_newParticipant_broadcast_global
    (db : DB) (chatId p : String) (u : UserDoc) (c : StoredChat)
    (hval : isAddParticipantRequestValid chatId (some p) = true)
    (hu : userFindOne db p = some u) (hc : chatFindById db chatId = some c) :
    (addParticipantToChatRoute db chatId (some p) false).events
      = [⟨Scope.global, "newParticipant",
          RespBody.raw { c with participants := c.participants ++ [u.uid] }⟩] ∧
    ∀ (conns : List String) (R : Rooms),
      recipients conns R ⟨Scope.global, "newParticipant",
        RespBody.raw { c with participants := c.participants ++ [u.uid] }⟩ = conns := by
  constructor
  · simp [addParticipantToChatRoute, hval, addParticipantToChat, hu, hc]
  · intro conns R
    rfl

/-- C4 witness: the amended statement at the concrete add of "bob" to chat
"c1", with the global delivery instantiated at two connections outside the
room. -/
theorem c4_newParticipant_broadcast_global_witness :
    (addParticipantToChatRoute Samples.db0 "c1" (some "bob") false).events
      = [⟨Scope.global, "newParticipant",
          RespBody.raw { Samples.chat1 with
                          participants := Samples.chat1.participants ++ ["u2"] }⟩] ∧
    recipients ["conn1", "conn2"] ⟨[]⟩
        ⟨Scope.global, "newParticipant",
          RespBody.raw { Samples.chat1 with
                          participants := Samples.chat1.participants ++ ["u2"] }⟩
      = ["conn1", "conn2"] :=
  ⟨(c4_newParticipant_broadcast_global Samples.db0 "c1" "bob" Samples.bobDoc Samples.chat1
      (by decide) (by decide) (by decide)).1,
   (c4_newParticipant_broadcast_global Samples.db0 "c1" "bob" Samples.bobDoc Samples.chat1
      (by decide) (by decide) (by decide)).2 ["conn1", "conn2"] ⟨[]⟩⟩

/-- C5: on a fully successful addMessage request the message is persisted —
it is in the message collection and appended to the chat's message list — and
exactly one `newMessage` chatUpdate event is emitted, scoped to the `chatId`
room, whose populated payload references the new message; a room-scoped event
is delivered exactly to the connections currently subscribed to that room.
The emit only occurs on the success path, after both store writes returned
without an error marker. -/
theorem c5_addMessage_persist_then_single_scoped_emit
    (db : DB) (chatId msg msgFrom : String) (t now : Nat) (u : UserDoc) (c : StoredChat)
    (hchat : chatId ≠ "") (hmsg : msg ≠ "") (hmf : msgFrom ≠ "")
    (hu : userFindOne db msgFrom = some u)
    (hc : chatFindById db chatId = some c)
    (hfresh : ∀ m ∈ db.messages, m.mid ≠ freshId db) :
    ∃ (pc : PopulatedChat) (db2 : DB),
      addMessageToChatRoute db chatId ⟨some msg, some msgFrom, some t⟩ now false false false
        = ⟨HttpResponse.json (RespBody.populated pc), db2,
           [⟨Scope.room chatId, "newMessage", RespBody.populated pc⟩]⟩ ∧
      (⟨freshId db, msg, msgFrom, t, "direct"⟩ : StoredMessage) ∈ db2.messages ∧
      chatFindById db2 chatId = some { c with messages := c.messages ++ [freshId db] } ∧
      (⟨freshId db, msg, msgFrom, t, "direct"⟩ : StoredMessage) ∈ pc.messages ∧
      ∀ (conns : List String) (R : Rooms),
        recipients conns R ⟨Scope.room chatId, "newMessage", RespBody.populated pc⟩
          = conns.filter (fun cn => R.inRoom cn chatId) := by
  have hval : isAddMessageRequestValid chatId (some msg) (some msgFrom) = true := by
    simp [isAddMessageRequestValid, truthyStr, hchat, hmsg, hmf]
  have hc' : db.chats.find? (fun x => x.cid == chatId) = some c := hc
  have hcLid : c.cid = chatId := by
    have h1 := List.find?_some hc'
    simpa using h1
  have hcm : createMessage db ⟨msg, msgFrom, t, "direct"⟩ false =
      (Except.ok ⟨freshId db, msg, msgFrom, t, "direct"⟩,
       { db with
          messages := db.messages ++ [⟨freshId db, msg, msgFrom, t, "direct"⟩],
          nextId := db.nextId + 1 }) := by
    simp only [createMessage, hu, messageCreate_false]
  have hc1 : chatFindById
      { db with
         messages := db.messages ++ [⟨freshId db, msg, msgFrom, t, "direct"⟩],
         nextId := db.nextId + 1 } chatId = some c := hc
  have hamc : addMessageToChat
      { db with
         messages := db.messages ++ [⟨freshId db, msg, msgFrom, t, "direct"⟩],
         nextId := db.nextId + 1 } chatId (freshId db) false =
      (Except.ok { c with messages := c.messages ++ [freshId db] },
       { users := db.users,
         messages := db.messages ++ [(⟨freshId db, msg, msgFrom, t, "direct"⟩ : StoredMessage)],
         chats := db.chats.map (fun x =>
           if x.cid == c.cid then { c with messages := c.messages ++ [freshId db] } else x),
         nextId := db.nextId + 1 }) := by
    simp [addMessageToChat, hc1, updateChat]
  have hc2 : db.chats.find? (fun x => x.cid == c.cid) = some c := by
    have h2 := hc'
    rw [← hcLid] at h2
    exact h2
  have hfind2 : chatFindById
      { users := db.users,
        messages := db.messages ++ [(⟨freshId db, msg, msgFrom, t, "direct"⟩ : StoredMessage)],
        chats := db.chats.map (fun x =>
          if x.cid == c.cid then { c with messages := c.messages ++ [freshId db] } else x),
        nextId := db.nextId + 1 } chatId
      = some { c with messages := c.messages ++ [freshId db] } :=
    find?_map_replace db.chats chatId c { c with messages := c.messages ++ [freshId db] }
      hc' hcLid
  have hfind2' : chatFindById
      { users := db.users,
        messages := db.messages ++ [(⟨freshId db, msg, msgFrom, t, "direct"⟩ : StoredMessage)],
        chats := db.chats.map (fun x =>
          if x.cid == c.cid then { c with messages := c.messages ++ [freshId db] } else x),
        nextId := db.nextId + 1 } c.cid
      = some { c with messages := c.messages ++ [freshId db] } :=
    find?_map_replace db.chats c.cid c { c with messages := c.messages ++ [freshId db] }
      hc2 rfl
  have hpop : populateDocument
      { users := db.users,
        messages := db.messages ++ [(⟨freshId db, msg, msgFrom, t, "direct"⟩ : StoredMessage)],
        chats := db.chats.map (fun x =>
          if x.cid == c.cid then { c with messages := c.messages ++ [freshId db] } else x),
        nextId := db.nextId + 1 } c.cid false
      = Except.ok
          ⟨c.cid, c.participants,
           (c.messages ++ [freshId db]).filterMap
             (fun mid =>
               (db.messages ++
                 [(⟨freshId db, msg, msgFrom, t, "direct"⟩ : StoredMessage)]).find?
                 (fun m => m.mid == mid))⟩ := by
    simp only [populateDocument]
    rw [hfind2']
    simp
  have hnone : db.messages.find? (fun m => m.mid == freshId db) = none := by
    rw [List.find?_eq_none]
    intro x hx
    simpa using hfresh x hx
  refine ⟨⟨c.cid, c.participants,
      (c.messages ++ [freshId db]).filterMap
        (fun mid =>
          (db.messages ++
            [(⟨freshId db, msg, msgFrom, t, "direct"⟩ : StoredMessage)]).find?
            (fun m => m.mid == mid))⟩,
    { users := db.users,
      messages := db.messages ++ [(⟨freshId db, msg, msgFrom, t, "direct"⟩ : StoredMessage)],
      chats := db.chats.map (fun x =>
        if x.cid == c.cid then { c with messages := c.messages ++ [freshId db] } else x),
      nextId := db.nextId + 1 },
    ?_, ?_, hfind2, ?_, ?_⟩
  · simp only [addMessageToChatRoute, hval, eq_self_iff_true, if_true, Option.getD_some,
      hcm, hamc, hpop]
  · simp
  · simp only [List.filterMap_append]
    refine List.mem_append_right _ ?_
    simp [List.filterMap_cons, List.find?_append, hnone]
  · intro conns R
    rfl

/-- C5 witness: the statement at a concrete database, sender "alice" and chat
"c1". -/
theorem c5_addMessage_persist_then_single_scoped_emit_witness :
    ∃ (pc : PopulatedChat) (db2 : DB),
      addMessageToChatRoute Samples.db0 "c1" ⟨some "yo", some "alice", some 7⟩ 9
          false false false
        = ⟨HttpResponse.json (RespBody.populated pc), db2,
           [⟨Scope.room "c1", "newMessage", RespBody.populated pc⟩]⟩ ∧
      (⟨freshId Samples.db0, "yo", "alice", 7, "direct"⟩ : StoredMessage) ∈ db2.messages ∧
      chatFindById db2 "c1"
        = some { Samples.chat1 with
                  messages := Samples.chat1.messages ++ [freshId Samples.db0] } ∧
      (⟨freshId Samples.db0, "yo", "alice", 7, "direct"⟩ : StoredMessage) ∈ pc.messages ∧
      ∀ (conns : List String) (R : Rooms),
        recipients conns R ⟨Scope.room "c1", "newMessage", RespBody.populated pc⟩
          = conns.filter (fun cn => R.inRoom cn "c1") :=
  c5_addMessage_persist_then_single_scoped_emit Samples.db0 "c1" "yo" "alice" 7 9
    Samples.aliceDoc Samples.chat1 (by decide) (by decide) (by decide)
    (by decide) (by decide) (by decide)

/-- C6 counterexample: an internal failure — `populateDocument` failing after
the chat was created — is answered with a 200 `res.json` response carrying the
error object (and the error object is even emitted), NOT with a 500; the
routes never check the populate result for its error marker. -/
theorem c6_counterexample :
    createChatRoute Samples.db0 ⟨some ["alice"], some []⟩ (fun _ => false) false true
      = ⟨HttpResponse.json (RespBody.errorObj "Error populating document"),
         ⟨[Samples.aliceDoc, Samples.bobDoc], [], [Samples.chat1, ⟨"id0", ["alice"], []⟩], 1⟩,
         [⟨Scope.global, "created", RespBody.errorObj "Error populating document"⟩]⟩ := by
  decide

/-- C6 (amended): at the chat controller's mutating routes, every request
failing field validation gets a 400 with the route's literal message, mutates
nothing and emits nothing; every service failure detected by a route's
explicit error check gets a 500 with a wrapped message; every fully
successful mutation is answered 200 with the route's result entity — except
that a `populateDocument` failure after a successful chat creation or message
addition is answered 200 carrying the error object, and addParticipant
answers with the raw, unpopulated chat. -/
theorem c6_boundary_codes_amended :
    (∀ (db : DB) (b : CreateChatBody) (f : Nat → Bool) (g p : Bool),
      isCreateChatRequestValid b = false →
      createChatRoute db b f g p
        = ⟨HttpResponse.badRequest "Invalid request for creating chat", db, []⟩) ∧
    (∀ (db : DB) (chatId : String) (b : AddMessageBody) (now : Nat) (fc fu fp : Bool),
      isAddMessageRequestValid chatId b.msg b.msgFrom = false →
      addMessageToChatRoute db chatId b now fc fu fp
        = ⟨HttpResponse.badRequest "Invalid request body", db, []⟩) ∧
    (∀ (db : DB) (chatId : String) (pa : Option String) (fu : Bool),
      isAddParticipantRequestValid chatId pa = false →
      addParticipantToChatRoute db chatId pa fu
        = ⟨HttpResponse.badRequest "Invalid request body", db, []⟩) ∧
    (∀ (db : DB) (ps : List String) (ms : List MessageData) (f : Nat → Bool)
        (g p : Bool) (e : String) (db1 : DB),
      0 < ps.length →
      saveChat db ⟨ps, ms⟩ f g = (Except.error e, db1) →
      createChatRoute db ⟨some ps, some ms⟩ f g p
        = ⟨HttpResponse.serverError ("Error occurred while creating a chat: " ++ e),
           db1, []⟩) ∧
    (∀ (db : DB) (chatId msg msgFrom : String) (t now : Nat) (fc fu fp : Bool)
        (e : String) (db1 : DB),
      isAddMessageRequestValid chatId (some msg) (some msgFrom) = true →
      createMessage db ⟨msg, msgFrom, t, "direct"⟩ fc = (Except.error e, db1) →
      addMessageToChatRoute db chatId ⟨some msg, some msgFrom, some t⟩ now fc fu fp
        = ⟨HttpResponse.serverError
             ("Error occurred while adding a message to the chat: " ++ e), db1, []⟩) ∧
    (∀ (db : DB) (chatId p : String) (fu : Bool) (e : String) (db1 : DB),
      isAddParticipantRequestValid chatId (some p) = true →
      addParticipantToChat db chatId p fu = (Except.error e, db1) →
      addParticipantToChatRoute db chatId (some p) fu
        = ⟨HttpResponse.serverError
             ("Error occurred while adding participant to chat: " ++ e), db1, []⟩) ∧
    (∀ (db : DB) (chatId p : String) (c : StoredChat) (db1 : DB),
      isAddParticipantRequestValid chatId (some p) = true →
      addParticipantToChat db chatId p false = (Except.ok c, db1) →
      addParticipantToChatRoute db chatId (some p) false
        = ⟨HttpResponse.json (RespBody.raw c), db1,
           [⟨Scope.global, "newParticipant", RespBody.raw c⟩]⟩) ∧
    (∀ (db : DB) (ps : List String) (ms : List MessageData) (f : Nat → Bool) (g : Bool)
        (c : StoredChat) (db1 : DB) (pc : PopulatedChat),
      0 < ps.length →
      saveChat db ⟨ps, ms⟩ f g = (Except.ok c, db1) →
      populateDocument db1 c.cid false = Except.ok pc →
      createChatRoute db ⟨some ps, some ms⟩ f g false
        = ⟨HttpResponse.json (RespBody.populated pc), db1,
           [⟨Scope.global, "created", RespBody.populated pc⟩]⟩) ∧
    (∀ (db : DB) (ps : List String) (ms : List MessageData) (f : Nat → Bool) (g : Bool)
        (c : StoredChat) (db1 : DB),
      0 < ps.length →
      saveChat db ⟨ps, ms⟩ f g = (Except.ok c, db1) →
      createChatRoute db ⟨some ps, some ms⟩ f g true
        = ⟨HttpResponse.json (RespBody.errorObj "Error populating document"), db1,
           [⟨Scope.global, "created", RespBody.errorObj "Error populating document"⟩]⟩) ∧
    (∀ (db : DB) (chatId msg msgFrom : String) (t now : Nat) (fc fu fp : Bool)
        (sm : StoredMessage) (db1 : DB) (e : String) (db2 : DB),
      isAddMessageRequestValid chatId (some msg) (some msgFrom) = true →
      createMessage db ⟨msg, msgFrom, t, "direct"⟩ fc = (Except.ok sm, db1) →
      addMessageToChat db1 chatId sm.mid fu = (Except.error e, db2) →
      addMessageToChatRoute db chatId ⟨some msg, some msgFrom, some t⟩ now fc fu fp
        = ⟨HttpResponse.serverError
             ("Error occurred while adding a message to the chat: " ++ e), db2, []⟩) ∧
    (∀ (db : DB) (chatId msg msgFrom : String) (t now : Nat) (fc fu : Bool)
        (sm : StoredMessage) (db1 : DB) (uc : StoredChat) (db2 : DB) (pc : PopulatedChat),
      isAddMessageRequestValid chatId (some msg) (some msgFrom) = true →
      createMessage db ⟨msg, msgFrom, t, "direct"⟩ fc = (Except.ok sm, db1) →
      addMessageToChat db1 chatId sm.mid fu = (Except.ok uc, db2) →
      populateDocument db2 uc.cid false = Except.ok pc →
      addMessageToChatRoute db chatId ⟨some msg, some msgFrom, some t⟩ now fc fu false
        = ⟨HttpResponse.json (RespBody.populated pc), db2,
           [⟨Scope.room chatId, "newMessage", RespBody.populated pc⟩]⟩) ∧
    (∀ (db : DB) (chatId msg msgFrom : String) (t now : Nat) (fc fu : Bool)
        (sm : StoredMessage) (db1 : DB) (uc : StoredChat) (db2 : DB),
      isAddMessageRequestValid chatId (some msg) (some msgFrom) = true →
      createMessage db ⟨msg, msgFrom, t, "direct"⟩ fc = (Except.ok sm, db1) →
      addMessageToChat db1 chatId sm.mid fu = (Except.ok uc, db2) →
      addMessageToChatRoute db chatId ⟨some msg, some msgFrom, some t⟩ now fc fu true
        = ⟨HttpResponse.json (RespBody.errorObj "Error populating document"), db2,
           [⟨Scope.room chatId, "newMessage",
             RespBody.errorObj "Error populating document"⟩]⟩) := by
  refine ⟨?_, ?_, ?_, ?_, ?_, ?_, ?_, ?_, ?_, ?_, ?_, ?_⟩
  · intro db b f g p hinv
    simp [createChatRoute, hinv]
  · intro db chatId b now fc fu fp hinv
    simp [addMessageToChatRoute, hinv]
  · intro db chatId pa fu hinv
    simp [addParticipantToChatRoute, hinv]
  · intro db ps ms f g p e db1 hps hsv
    have hval : isCreateChatRequestValid ⟨some ps, some ms⟩ = true := by
      simp [isCreateChatRequestValid, hps]
    simp [createChatRoute, hval, hsv]
  · intro db chatId msg msgFrom t now fc fu fp e db1 hval hcm
    simp [addMessageToChatRoute, hval, hcm]
  · intro db chatId p fu e db1 hval hap
    simp [addParticipantToChatRoute, hval, hap]
  · intro db chatId p c db1 hval hap
    simp [addParticipantToChatRoute, hval, hap]
  · intro db ps ms f g c db1 pc hps hsv hpp
    have hval : isCreateChatRequestValid ⟨some ps, some ms⟩ = true := by
      simp [isCreateChatRequestValid, hps]
    simp [createChatRoute, hval, hsv, hpp]
  · intro db ps ms f g c db1 hps hsv
    have hval : isCreateChatRequestValid ⟨some ps, some ms⟩ = true := by
      simp [isCreateChatRequestValid, hps]
    simp [createChatRoute, hval, hsv, populateDocument]
  · intro db chatId msg msgFrom t now fc fu fp sm db1 e db2 hval hcm hamc
    simp [addMessageToChatRoute, hval, hcm, hamc]
  · intro db chatId msg msgFrom t now fc fu sm db1 uc db2 pc hval hcm hamc hpp
    simp [addMessageToChatRoute, hval, hcm, hamc, hpp]
  · intro db chatId msg msgFrom t now fc fu sm db1 uc db2 hval hcm hamc
    simp [addMessageToChatRoute, hval, hcm, hamc, populateDocument]

/-- C6 witness: the amended statement instantiated — an invalid createChat
body gets a 400, an addParticipant with an unknown user gets a 500, a
successful addParticipant gets a 200 with the raw chat plus a global event,
and an addMessage whose populate fails after a successful update gets a 200
carrying the error object. -/
theorem c6_boundary_codes_amended_witness :
    createChatRoute Samples.db0 ⟨none, none⟩ (fun _ => false) false false
      = ⟨HttpResponse.badRequest "Invalid request for creating chat", Samples.db0, []⟩ ∧
    addParticipantToChatRoute Samples.db0 "c1" (some "zed") false
      = ⟨HttpResponse.serverError
           ("Error occurred while adding participant to chat: " ++
            "Error occurred while adding participant to chat: User not found"),
         Samples.db0, []⟩ ∧
    addParticipantToChatRoute Samples.db0 "c1" (some "bob") false
      = ⟨HttpResponse.json (RespBody.raw ⟨"c1", ["u1", "u2"], []⟩),
         ⟨[Samples.aliceDoc, Samples.bobDoc], [], [⟨"c1", ["u1", "u2"], []⟩], 0⟩,
         [⟨Scope.global, "newParticipant", RespBody.raw ⟨"c1", ["u1", "u2"], []⟩⟩]⟩ ∧
    addMessageToChatRoute Samples.db0 "c1" ⟨some "hi", some "alice", some 5⟩ 9
        false false true
      = ⟨HttpResponse.json (RespBody.errorObj "Error populating document"),
         ⟨[Samples.aliceDoc, Samples.bobDoc], [⟨"id0", "hi", "alice", 5, "direct"⟩],
          [⟨"c1", ["u1"], ["id0"]⟩], 1⟩,
         [⟨Scope.room "c1", "newMessage",
           RespBody.errorObj "Error populating document"⟩]⟩ :=
  ⟨c6_boundary_codes_amended.1 Samples.db0 ⟨none, none⟩ (fun _ => false) false false
     (by decide),
   c6_boundary_codes_amended.2.2.2.2.2.1 Samples.db0 "c1" "zed" false
     ("Error occurred while adding participant to chat: User not found") Samples.db0
     (by decide) (by decide),
   c6_boundary_codes_amended.2.2.2.2.2.2.1 Samples.db0 "c1" "bob"
     ⟨"c1", ["u1", "u2"], []⟩
     ⟨[Samples.aliceDoc, Samples.bobDoc], [], [⟨"c1", ["u1", "u2"], []⟩], 0⟩
     (by decide) (by decide),
   c6_boundary_codes_amended.2.2.2.2.2.2.2.2.2.2.2 Samples.db0 "c1" "hi" "alice" 5 9
     false false ⟨"id0", "hi", "alice", 5, "direct"⟩
     ⟨[Samples.aliceDoc, Samples.bobDoc], [⟨"id0", "hi", "alice", 5, "direct"⟩],
      [Samples.chat1], 1⟩
     ⟨"c1", ["u1"], ["id0"]⟩
     ⟨[Samples.aliceDoc, Samples.bobDoc], [⟨"id0", "hi", "alice", 5, "direct"⟩],
      [⟨"c1", ["u1"], ["id0"]⟩], 1⟩
     (by decide) (by decide) (by decide)⟩

/-- C7 counterexample: the empty string is falsy in JS, so the `leaveChat`
guard `if (chatID)` skips the leave for chat id "" while `joinChat` has no
such guard: after joining room "" and then leaving it, the connection is
STILL in the room — the join-then-leave part of the claim fails at the empty
chat id. -/
theorem c7_counterexample :
    (leaveChatHandler (joinChatHandler ⟨[]⟩ "conn1" "") "conn1" (some "")).inRoom
      "conn1" "" = true := by
  decide

/-- C7 (amended): joining the chat room twice is a no-op; leaving when not a
member is a no-op; for every NON-EMPTY chat id, joining then leaving removes
the connection from the room; and a `leaveChat` whose chat id is undefined —
or empty, both falsy under the code's `if (chatID)` guard — changes no room
membership. -/
theorem c7_join_leave_idempotent :
    (∀ (R : Rooms) (c s : String),
      joinChatHandler (joinChatHandler R c s) c s = joinChatHandler R c s) ∧
    (∀ (R : Rooms) (c s : String), R.inRoom c s = false →
      leaveChatHandler R c (some s) = R) ∧
    (∀ (R : Rooms) (c s : String), s ≠ "" →
      (leaveChatHandler (joinChatHandler R c s) c (some s)).inRoom c s = false) ∧
    (∀ (R : Rooms) (c : String),
      leaveChatHandler R c none = R ∧ leaveChatHandler R c (some "") = R) := by
  refine ⟨?_, ?_, ?_, ?_⟩
  · intro R c s
    cases h : R.inRoom c s with
    | true => simp [joinChatHandler, Rooms.join, h]
    | false =>
      have h2 : Rooms.inRoom ⟨(c, s) :: R.pairs⟩ c s = true := by
        simp [Rooms.inRoom]
      simp [joinChatHandler, Rooms.join, h, h2]
  · intro R c s h
    by_cases hs : s = ""
    · subst hs
      simp [leaveChatHandler]
    · cases R with
      | mk pairs =>
        have hmem : (c, s) ∉ pairs := by
          simpa [Rooms.inRoom] using h
        simp only [leaveChatHandler, if_pos hs, Rooms.leave, Rooms.mk.injEq]
        rw [List.filter_eq_self]
        intro p hp
        simp only [bne_iff_ne, ne_eq]
        intro hps
        exact hmem (hps ▸ hp)
  · intro R c s hs
    simp only [joinChatHandler, leaveChatHandler, if_pos hs, Rooms.leave, Rooms.inRoom]
    simp [List.contains, List.mem_filter]
  · intro R c
    exact ⟨rfl, by simp [leaveChatHandler]⟩

/-- C7 witness: the four amended parts at a concrete room table and
connection, with the join-then-leave part at the non-empty chat id "c1". -/
theorem c7_join_leave_idempotent_witness :
    joinChatHandler (joinChatHandler ⟨[]⟩ "conn1" "c1") "conn1" "c1"
      = joinChatHandler ⟨[]⟩ "conn1" "c1" ∧
    leaveChatHandler ⟨[("conn2", "c2")]⟩ "conn1" (some "c1") = ⟨[("conn2", "c2")]⟩ ∧
    (leaveChatHandler (joinChatHandler ⟨[]⟩ "conn1" "c1") "conn1" (some "c1")).inRoom
      "conn1" "c1" = false ∧
    (leaveChatHandler ⟨[("conn2", "c2")]⟩ "conn1" none = ⟨[("conn2", "c2")]⟩ ∧
     leaveChatHandler ⟨[("conn2", "c2")]⟩ "conn1" (some "") = ⟨[("conn2", "c2")]⟩) :=
  ⟨c7_join_leave_idempotent.1 ⟨[]⟩ "conn1" "c1",
   c7_join_leave_idempotent.2.1 ⟨[("conn2", "c2")]⟩ "conn1" "c1" (by decide),
   c7_join_leave_idempotent.2.2.1 ⟨[]⟩ "conn1" "c1" (by decide),
   c7_join_leave_idempotent.2.2.2 ⟨[("conn2", "c2")]⟩ "conn1"⟩

namespace NimGame

/-- Helper invariant: folding `handleInputChange` preserves the property that
any stored move lies in the closed range [1,3]. -/
lemma foldl_handleInputChange_range (inputs : List String) :
    ∀ (m : Option Nat), (∀ n, m = some n → 1 ≤ n ∧ n ≤ 3) →
      ∀ n, inputs.foldl handleInputChange m = some n → 1 ≤ n ∧ n ≤ 3 := by
  induction inputs with
  | nil => intro m hm n h; exact hm n h
  | cons v rest ih =>
    intro m hm n h
    refine ih (handleInputChange m v) ?_ n h
    intro k hk
    unfold handleInputChange at hk
    cases hv : lastCharNumber v with
    | none =>
      simp only [hv] at hk
      exact hm k hk
    | some j =>
      simp only [hv] at hk
      split at hk
      · rename_i hcnd
        cases hk
        exact hcnd.2
      · exact hm k hk

end NimGame

/-- C8: every `makeMove` payload the Nim page emits carries a `numObjects` in
the closed range [1,3]: `handleInputChange` only ever stores a value between 1
and 3, and `handleMakeMove` emits only when a (truthy) move is stored. -/
theorem c8_makeMove_in_range (inputs : List String) (username gameID : String)
    (p : NimGame.MovePayload)
    (h : NimGame.handleMakeMove username gameID (NimGame.moveState inputs) = some p) :
    1 ≤ p.numObjects ∧ p.numObjects ≤ 3 := by
  unfold NimGame.handleMakeMove at h
  cases hm : NimGame.moveState inputs with
  | none =>
    simp only [hm] at h
    exact Option.noConfusion h
  | some n =>
    simp only [hm] at h
    by_cases hn : n ≠ 0
    · rw [if_pos hn] at h
      have hr : 1 ≤ n ∧ n ≤ 3 :=
        NimGame.foldl_handleInputChange_range inputs none (by intro k hk; cases hk) n hm
      injection h with h1
      subst h1
      exact hr
    · rw [if_neg hn] at h
      simp at h

/-- C8 witness: after typing "2" the emitted payload has `numObjects = 2`,
which lies in [1,3]. -/
theorem c8_makeMove_in_range_witness :
    1 ≤ (NimGame.MovePayload.mk "alice" "g1" 2).numObjects ∧
    (NimGame.MovePayload.mk "alice" "g1" 2).numObjects ≤ 3 :=
  c8_makeMove_in_range ["2"] "alice" "g1" ⟨"alice", "g1", 2⟩ (by decide)

/-- C9: in signup mode, `validateInputs` returns true whenever username and
password are non-empty — even when password and confirmation differ it only
sets an error message — so `handleSubmit` goes on to call `createUser` with
the unconfirmed password. -/
theorem c9_signup_mismatch_still_submits (u pw pc : String)
    (hu : u ≠ "") (hp : pw ≠ "") :
    (Auth.validateInputs "signup" ⟨u, pw, pc⟩).1 = true ∧
    (pw ≠ pc → (Auth.validateInputs "signup" ⟨u, pw, pc⟩).2
      = some "Password and Password confirmation do not match") ∧
    Auth.handleSubmit "signup" ⟨u, pw, pc⟩ = some (Auth.ApiCall.createUser u pw) := by
  by_cases hpc : pw = pc
  · subst hpc
    simp [Auth.validateInputs, Auth.handleSubmit, hu, hp]
  · simp [Auth.validateInputs, Auth.handleSubmit, hu, hp, hpc]

/-- C9 witness: a concrete signup with mismatched confirmation still validates
and submits `createUser` with the unconfirmed password. -/
theorem c9_signup_mismatch_still_submits_witness :
    (Auth.validateInputs "signup" ⟨"alice", "pw1", "pw2"⟩).1 = true ∧
    ("pw1" ≠ "pw2" → (Auth.validateInputs "signup" ⟨"alice", "pw1", "pw2"⟩).2
      = some "Password and Password confirmation do not match") ∧
    Auth.handleSubmit "signup" ⟨"alice", "pw1", "pw2"⟩
      = some (Auth.ApiCall.createUser "alice" "pw1") :=
  c9_signup_mismatch_still_submits "alice" "pw1" "pw2" (by decide) (by decide)

/-- C10: the users-list update handler: `created` replaces the matching entry
(keeping the length) when the username is present and prepends otherwise;
`deleted` removes every entry with that username; any other type raises an
error before any list update. -/
theorem c10_userUpdate_handler :
    (∀ (l : List UsersList.UserT) (u : UsersList.UserT),
      (l.any (fun cu => cu.username == u.username) = true →
        UsersList.handleModifiedUserUpdate l ⟨u, "created"⟩
          = Except.ok (l.map (fun cu => if cu.username == u.username then u else cu)) ∧
        (l.map (fun cu => if cu.username == u.username then u else cu)).length = l.length) ∧
      (l.any (fun cu => cu.username == u.username) = false →
        UsersList.handleModifiedUserUpdate l ⟨u, "created"⟩ = Except.ok (u :: l)) ∧
      (UsersList.handleModifiedUserUpdate l ⟨u, "deleted"⟩
          = Except.ok (l.filter (fun cu => u.username != cu.username)) ∧
        ∀ x ∈ l.filter (fun cu => u.username != cu.username), x.username ≠ u.username)) ∧
    (∀ (l : List UsersList.UserT) (p : UsersList.UserUpdatePayload),
      p.utype ≠ "created" → p.utype ≠ "deleted" →
      UsersList.handleModifiedUserUpdate l p = Except.error "Invalid user update type") := by
  refine ⟨fun l u => ⟨?_, ?_, ?_, ?_⟩, ?_⟩
  · intro hany
    simp [UsersList.handleModifiedUserUpdate, UsersList.addUserToList, hany]
  · intro hany
    simp [UsersList.handleModifiedUserUpdate, UsersList.addUserToList, hany]
  · simp [UsersList.handleModifiedUserUpdate, UsersList.removeUserFromList]
  · intro x hx
    have := (List.mem_filter.mp hx).2
    simp only [bne_iff_ne, ne_eq] at this
    exact fun hxu => this (hxu.symm)
  · intro l p h1 h2
    simp [UsersList.handleModifiedUserUpdate, h1, h2]

/-- C10 witness: the handler on a concrete two-entry list, for a replacement,
a prepend, a deletion and an invalid type. -/
theorem c10_userUpdate_handler_witness :
    UsersList.handleModifiedUserUpdate
        [⟨"alice", "old"⟩, ⟨"bob", "b"⟩] ⟨⟨"alice", "new"⟩, "created"⟩
      = Except.ok [⟨"alice", "new"⟩, ⟨"bob", "b"⟩] ∧
    UsersList.handleModifiedUserUpdate
        [⟨"alice", "old"⟩] ⟨⟨"carol", "c"⟩, "created"⟩
      = Except.ok [⟨"carol", "c"⟩, ⟨"alice", "old"⟩] ∧
    UsersList.handleModifiedUserUpdate
        [⟨"alice", "old"⟩, ⟨"bob", "b"⟩] ⟨⟨"bob", "x"⟩, "deleted"⟩
      = Except.ok [⟨"alice", "old"⟩] ∧
    UsersList.handleModifiedUserUpdate
        [⟨"alice", "old"⟩] ⟨⟨"alice", "new"⟩, "edited"⟩
      = Except.error "Invalid user update type" := by
  have h1 := (c10_userUpdate_handler.1
    [⟨"alice", "old"⟩, ⟨"bob", "b"⟩] ⟨"alice", "new"⟩).1 (by decide)
  have h2 := (c10_userUpdate_handler.1 [⟨"alice", "old"⟩] ⟨"carol", "c"⟩).2.1 (by decide)
  have h3 := (c10_userUpdate_handler.1
    [⟨"alice", "old"⟩, ⟨"bob", "b"⟩] ⟨"bob", "x"⟩).2.2.1
  have h4 := c10_userUpdate_handler.2 [⟨"alice", "old"⟩] ⟨⟨"alice", "new"⟩, "edited"⟩
    (by decide) (by decide)
  exact ⟨by simpa using h1.1, h2, by simpa using h3, h4⟩
